import Mathlib

/-!
# Hall-Booking API — shallow embedding and verification

A shallow embedding of `src/server.js` (an Express + MongoDB hall-booking
service).  MongoDB collections are modelled as Lean lists in insertion
(store) order; `insertOne` appends; `find` filters in store order;
`findOne` returns the first match.  Time-of-day values (`start`, `end`)
are opaque orderable values in the source (compared with `$lte`/`$gte`),
modelled here as `Nat`.  The MongoDB-generated `_id` is modelled as a
`Nat` drawn from a counter supplied by the caller.
-/

namespace HallBooking

/-- A stored booking document.  `_id` is the store-generated identifier
(`booking._id` in the source); the remaining fields are the caller-supplied
body of `POST /bookings`. -/
structure Booking where
  _id : Nat
  roomId : String
  date : String
  start : Nat
  stop : Nat           -- the source's `end` field (`end` is reserved in Lean)
  customerName : String
  status : String
deriving Repr, DecidableEq

/-- The caller-supplied body of `POST /bookings` (`req.body`), before the
store generates an `_id`. -/
structure BookingReq where
  roomId : String
  date : String
  start : Nat
  stop : Nat           -- the source's `end` field
  customerName : String
  status : String
deriving Repr, DecidableEq

/-- A stored room document (`req.body` of `POST /rooms`, stored verbatim).
The source performs no validation, so `roomId` and `name` may be absent
(`none`); `extra` carries any further caller-supplied attributes. -/
structure Room where
  roomId : Option String
  name : Option String
  extra : List (String × String)
deriving Repr, DecidableEq

/-- The `$or` part of the conflict query in `POST /bookings`
(src/server.js:51-55), with `(s, e)` the stored booking's `start`/`end`
and `(s', e')` the request's `start`/`end`:
`[{start: {$lte: start}, end: {$gte: start}},
  {start: {$lte: end}, end: {$gte: end}},
  {start: {$gte: start}, end: {$lte: end}}]`. -/
def conflictOr (s e s' e' : Nat) : Bool :=
  (decide (s ≤ s') && decide (e ≥ s')) ||
  (decide (s ≤ e') && decide (e ≥ e')) ||
  (decide (s ≥ s') && decide (e ≤ e'))

/-- The full filter passed to `bookingsCollection.findOne`
(src/server.js:48-56): same `roomId`, same `date`, and the `$or` clause. -/
def matchesConflict (req : BookingReq) (b : Booking) : Bool :=
  b.roomId == req.roomId && b.date == req.date &&
    conflictOr b.start b.stop req.start req.stop

/-- Outcome of `POST /bookings`: HTTP 400 `{error: 'Room already booked
for the given date and time'}` or HTTP 201 `'Room Booked'`. -/
inductive BookResult
  | conflict   -- 400, SlotConflict
  | created    -- 201
deriving Repr, DecidableEq

/-- The booking stored by `insertOne(req.body)`: all supplied fields plus
the store-generated `_id`. -/
def mkBooking (id : Nat) (req : BookingReq) : Booking :=
  { _id := id, roomId := req.roomId, date := req.date, start := req.start,
    stop := req.stop, customerName := req.customerName, status := req.status }

/-- The `POST /bookings` handler (src/server.js:43-69): `findOne` the
conflict filter; if a match exists answer 400 and leave the store alone,
otherwise `insertOne(req.body)` and answer 201.  `id` is the `_id` the
store would generate for the insert. -/
def bookRoom (req : BookingReq) (id : Nat) (store : List Booking) :
    BookResult × List Booking :=
  match store.find? (matchesConflict req) with
  | some _ => (BookResult.conflict, store)
  | none => (BookResult.created, store ++ [mkBooking id req])

/-- The `POST /rooms` handler (src/server.js:33-40): `insertOne(req.body)`
verbatim — no validation of any field — then HTTP 201 `'Room Created'`.
Returns the HTTP status and the new rooms store. -/
def createRoom (body : Room) (rooms : List Room) : Nat × List Room :=
  (201, rooms ++ [body])

/-- One output row of `GET /rooms/bookings` (src/server.js:81-89). -/
structure RoomBookingRow where
  roomName : Option String
  roomId : Option String
  bookedStatus : String
  customerName : String
  date : String
  startTime : Nat
  endTime : Nat
deriving Repr, DecidableEq

/-- The row pushed for a (room, booking) pair in `GET /rooms/bookings`. -/
def roomRow (room : Room) (b : Booking) : RoomBookingRow :=
  { roomName := room.name, roomId := room.roomId, bookedStatus := b.status,
    customerName := b.customerName, date := b.date, startTime := b.start,
    endTime := b.stop }

/-- The filter `bookingsCollection.find({roomId: room.roomId})` used by
`GET /rooms/bookings` (src/server.js:78): the booking's `roomId` equals the
room's `roomId` value. -/
def bookingMatchesRoom (room : Room) (b : Booking) : Bool :=
  room.roomId == some b.roomId

/-- The `GET /rooms/bookings` handler (src/server.js:72-97): for each room
in store order, for each of its bookings in store order, push one row. -/
def listRoomBookings (rooms : List Room) (bookings : List Booking) :
    List RoomBookingRow :=
  rooms.foldl
    (fun result room =>
      (bookings.filter (bookingMatchesRoom room)).foldl
        (fun result booking => result ++ [roomRow room booking]) result)
    []

/-- One output row of `GET /customers/bookings` (src/server.js:107-113). -/
structure CustomerBookingRow where
  customerName : String
  roomName : Option String
  date : String
  startTime : Nat
  endTime : Nat
deriving Repr, DecidableEq

/-- The row pushed for a (booking, room) pair in `GET /customers/bookings`. -/
def customerRow (b : Booking) (room : Room) : CustomerBookingRow :=
  { customerName := b.customerName, roomName := room.name, date := b.date,
    startTime := b.start, endTime := b.stop }

/-- The `GET /customers/bookings` handler (src/server.js:100-120): for
each booking in store order, for each room whose `roomId` equals the
booking's `roomId`, push one row. -/
def listCustomerBookings (rooms : List Room) (bookings : List Booking) :
    List CustomerBookingRow :=
  bookings.foldl
    (fun result booking =>
      (rooms.filter (fun room => bookingMatchesRoom room booking)).foldl
        (fun result room => result ++ [customerRow booking room]) result)
    []

/-- `GET /customers/bookings` answers 200 + rows on the store-success
path; the 500 branch fires only on a store failure, not on any store
content. -/
def customersBookingsHandler (rooms : List Room) (bookings : List Booking) :
    Nat × List CustomerBookingRow :=
  (200, listCustomerBookings rooms bookings)

/-- One output row of `GET /customers/:name` (src/server.js:134-143).
Note `roomName := booking.roomId` and the duplicated date field. -/
structure HistoryRow where
  customerName : String
  roomName : String
  date : String
  startTime : Nat
  endTime : Nat
  bookingId : Nat
  bookingDate : String
  bookingStatus : String
deriving Repr, DecidableEq

/-- The row mapping of `GET /customers/:name` (src/server.js:134-143). -/
def historyRow (b : Booking) : HistoryRow :=
  { customerName := b.customerName, roomName := b.roomId, date := b.date,
    startTime := b.start, endTime := b.stop, bookingId := b._id,
    bookingDate := b.date, bookingStatus := b.status }

/-- `bookingsCollection.find({customerName: name}).toArray()`
(src/server.js:128).  The driver's `toArray()` always resolves to an
array — possibly empty, never `null`/`undefined` — so the result is
always `some`; `none` models the JS `null`/`undefined` that the
handler's guard tests for. -/
def findByCustomer (name : String) (bookings : List Booking) :
    Option (List Booking) :=
  some (bookings.filter (fun b => b.customerName == name))

/-- Outcome of `GET /customers/:name`: 200 + rows, or the 404
`'Customer not found or has no bookings'` branch. -/
inductive HistoryResponse
  | ok (rows : List HistoryRow)   -- 200
  | notFound                      -- 404
deriving Repr, DecidableEq

/-- The `GET /customers/:name` handler (src/server.js:124-148): fetch the
customer's bookings; if the result is falsy (`!customerBookings`) answer
404, otherwise map each booking to a `HistoryRow` and answer 200.  A JS
array is always truthy (even `[]`), so only a `null`/`undefined` result
(`none`) takes the 404 branch. -/
def getCustomerHistory (name : String) (bookings : List Booking) :
    HistoryResponse :=
  match findByCustomer name bookings with
  | none => HistoryResponse.notFound
  | some customerBookings =>
      HistoryResponse.ok (customerBookings.map historyRow)

/-! ## Interleaving model of concurrent `POST /bookings` requests

The handler `await`s `findOne` and then `await`s `insertOne`
(src/server.js:48, 64); the Node.js event loop may run other requests
between the two awaits.  Each in-flight request is therefore modelled as
two atomic phases — the conflict check and the insert — and a schedule
chooses which request advances at each step. -/

/-- Progress of one in-flight `POST /bookings` request: before its
`findOne`, between `findOne` and `insertOne`, or finished with its
outcome. -/
inductive Phase
  | toCheck
  | toInsert
  | done (result : BookResult)
deriving Repr, DecidableEq

/-- Shared state of the interleaved execution: the bookings collection,
the next store-generated `_id`, and each request's phase. -/
structure ConcState where
  store : List Booking
  nextId : Nat
  phases : List Phase
deriving Repr, DecidableEq

/-- Advance request `i` by one atomic phase.  In `toCheck` it runs the
`findOne` conflict query against the current store and either finishes
with 400 or moves to `toInsert`; in `toInsert` it runs `insertOne` and
finishes with 201; a finished request is left alone. -/
def stepReq (reqs : List BookingReq) (st : ConcState) (i : Nat) : ConcState :=
  match reqs.get? i, st.phases.get? i with
  | some req, some Phase.toCheck =>
      match st.store.find? (matchesConflict req) with
      | some _ => { st with phases := st.phases.set i (Phase.done BookResult.conflict) }
      | none => { st with phases := st.phases.set i Phase.toInsert }
  | some req, some Phase.toInsert =>
      { store := st.store ++ [mkBooking st.nextId req],
        nextId := st.nextId + 1,
        phases := st.phases.set i (Phase.done BookResult.created) }
  | _, _ => st

/-- Run a schedule (a list of request indices) from the empty store with
all requests at their conflict-check phase. -/
def runSchedule (reqs : List BookingReq) (schedule : List Nat) : ConcState :=
  schedule.foldl (stepReq reqs)
    { store := [], nextId := 0, phases := reqs.map (fun _ => Phase.toCheck) }

end HallBooking

namespace HallBooking

/-- Spec-side statement of the overlap predicate, written from §4.2/§8 of
the specification for comparison with the source-side `conflictOr`. -/
def specOverlap (s e s' e' : Nat) : Prop :=
  (s ≤ s' ∧ s' ≤ e) ∨ (s ≤ e' ∧ e' ≤ e) ∨ (s' ≤ s ∧ e' ≥ e)

instance (s e s' e' : Nat) : Decidable (specOverlap s e s' e') := by
  unfold specOverlap; infer_instance

lemma conflictOr_eq_true_iff (s e s' e' : Nat) :
    conflictOr s e s' e' = true ↔ specOverlap s e s' e' := by
  simp [conflictOr, specOverlap, ge_iff_le]
  tauto

lemma matchesConflict_eq_true_iff (req : BookingReq) (b : Booking) :
    matchesConflict req b = true ↔
      b.roomId = req.roomId ∧ b.date = req.date ∧
        conflictOr b.start b.stop req.start req.stop = true := by
  simp [matchesConflict, Bool.and_eq_true, and_assoc]

lemma foldl_push {α β : Type} (f : α → β) :
    ∀ (l : List α) (acc : List β),
      l.foldl (fun r x => r ++ [f x]) acc = acc ++ l.map f := by
  intro l
  induction l with
  | nil => intro acc; simp
  | cons x xs ih => intro acc; simp [ih, List.append_assoc]

lemma foldl_append {α β : Type} (g : α → List β) :
    ∀ (l : List α) (acc : List β),
      l.foldl (fun r x => r ++ g x) acc = acc ++ l.flatMap g := by
  intro l
  induction l with
  | nil => intro acc; simp
  | cons x xs ih => intro acc; simp [ih, List.append_assoc]

lemma listRoomBookings_eq (rooms : List Room) (bookings : List Booking) :
    listRoomBookings rooms bookings =
      rooms.flatMap
        (fun room =>
          (bookings.filter (bookingMatchesRoom room)).map (roomRow room)) := by
  have hbody :
      (fun (result : List RoomBookingRow) (room : Room) =>
          (bookings.filter (bookingMatchesRoom room)).foldl
            (fun result booking => result ++ [roomRow room booking]) result) =
        fun result room =>
          result ++ (bookings.filter (bookingMatchesRoom room)).map (roomRow room) :=
    funext fun result => funext fun room => foldl_push _ _ _
  rw [listRoomBookings, hbody, foldl_append, List.nil_append]

lemma listCustomerBookings_eq (rooms : List Room) (bookings : List Booking) :
    listCustomerBookings rooms bookings =
      bookings.flatMap
        (fun booking =>
          (rooms.filter (fun room => bookingMatchesRoom room booking)).map
            (customerRow booking)) := by
  have hbody :
      (fun (result : List CustomerBookingRow) (booking : Booking) =>
          (rooms.filter (fun room => bookingMatchesRoom room booking)).foldl
            (fun result room => result ++ [customerRow booking room]) result) =
        fun result booking =>
          result ++
            (rooms.filter (fun room => bookingMatchesRoom room booking)).map
              (customerRow booking) :=
    funext fun result => funext fun booking => foldl_push _ _ _
  rw [listCustomerBookings, hbody, foldl_append, List.nil_append]

lemma bookRoom_fst_eq (req : BookingReq) (id : Nat) (store : List Booking) :
    (bookRoom req id store).fst =
      if (store.filter
            (fun b => b.roomId == req.roomId && b.date == req.date)).any
          (fun b => conflictOr b.start b.stop req.start req.stop) then
        BookResult.conflict
      else BookResult.created := by
  have hiff :
      ((store.filter
            (fun b => b.roomId == req.roomId && b.date == req.date)).any
          (fun b => conflictOr b.start b.stop req.start req.stop) = true) ↔
        ∃ b ∈ store, matchesConflict req b = true := by
    simp [List.any_eq_true, List.mem_filter, matchesConflict, Bool.and_eq_true,
      and_assoc]
  cases h : store.find? (matchesConflict req) with
  | none =>
      have hnone : ∀ b ∈ store, ¬ matchesConflict req b = true :=
        List.find?_eq_none.mp h
      have hany : ¬ ((store.filter
            (fun b => b.roomId == req.roomId && b.date == req.date)).any
          (fun b => conflictOr b.start b.stop req.start req.stop) = true) := by
        intro hc
        obtain ⟨b, hb, hmb⟩ := hiff.mp hc
        exact hnone b hb hmb
      simp [bookRoom, h, hany]
  | some b =>
      have hb : b ∈ store ∧ matchesConflict req b = true :=
        ⟨List.mem_of_find?_eq_some h, List.find?_some h⟩
      have hany : (store.filter
            (fun b => b.roomId == req.roomId && b.date == req.date)).any
          (fun b => conflictOr b.start b.stop req.start req.stop) = true :=
        hiff.mpr ⟨b, hb.1, hb.2⟩
      simp [bookRoom, h, hany]

/-- Alice's and Bob's concurrent requests in the race scenario: the same
room, date and 9–10 interval. -/
def aliceReq : BookingReq :=
  { roomId := "R1", date := "2024-01-01", start := 9, stop := 10,
    customerName := "Alice", status := "booked" }

/-- Bob's request of the race scenario — see `aliceReq`. -/
def bobReq : BookingReq :=
  { roomId := "R1", date := "2024-01-01", start := 9, stop := 10,
    customerName := "Bob", status := "booked" }

/-- Claim C1: the conflict predicate of the booking-admission operation,
for existing interval (s, e) and candidate (s', e'), holds iff
s ≤ s' ≤ e, or s ≤ e' ≤ e, or (s' ≤ s and e' ≥ e); in particular a
candidate whose start equals the existing end, or whose end equals the
existing start, conflicts (given the existing interval is well-formed). -/
theorem claim_C1_conflict_predicate :
    (∀ s e s' e' : Nat, conflictOr s e s' e' = true ↔
       ((s ≤ s' ∧ s' ≤ e) ∨ (s ≤ e' ∧ e' ≤ e) ∨ (s' ≤ s ∧ e' ≥ e))) ∧
    (∀ s e e' : Nat, s ≤ e → conflictOr s e e e' = true) ∧
    (∀ s e s' : Nat, s ≤ e → conflictOr s e s' s = true) := by
  refine ⟨fun s e s' e' => conflictOr_eq_true_iff s e s' e', ?_, ?_⟩
  · intro s e e' h; simp [conflictOr, ge_iff_le]; omega
  · intro s e s' h; simp [conflictOr, ge_iff_le]; omega

/-- Witness for C1: back-to-back 9–10 and 10–11 conflict, as do 8–9
against existing 9–10. -/
theorem claim_C1_witness :
    conflictOr 9 10 10 11 = true ∧ conflictOr 9 10 8 9 = true :=
  ⟨claim_C1_conflict_predicate.2.1 9 10 11 (by decide),
   claim_C1_conflict_predicate.2.2 9 10 8 (by decide)⟩

/-- Claim C2: if some stored booking with the request's roomId and date
overlaps the requested interval, `POST /bookings` answers 400 and leaves
the store unchanged; otherwise it answers 201 and appends the booking
with all supplied fields plus the store-generated id. -/
theorem claim_C2_admission :
    ∀ (req : BookingReq) (id : Nat) (store : List Booking),
      ((∃ b ∈ store, b.roomId = req.roomId ∧ b.date = req.date ∧
          conflictOr b.start b.stop req.start req.stop = true) →
        bookRoom req id store = (BookResult.conflict, store)) ∧
      ((∀ b ∈ store, ¬(b.roomId = req.roomId ∧ b.date = req.date ∧
          conflictOr b.start b.stop req.start req.stop = true)) →
        bookRoom req id store = (BookResult.created, store ++ [mkBooking id req])) := by
  intro req id store
  constructor
  · rintro ⟨b, hb, hprop⟩
    have hm : matchesConflict req b = true :=
      (matchesConflict_eq_true_iff req b).mpr hprop
    cases h : store.find? (matchesConflict req) with
    | none => exact absurd hm (List.find?_eq_none.mp h b hb)
    | some c => simp [bookRoom, h]
  · intro hall
    have h : store.find? (matchesConflict req) = none :=
      List.find?_eq_none.mpr fun b hb hm =>
        hall b hb ((matchesConflict_eq_true_iff req b).mp hm)
    simp [bookRoom, h]

/-- Witness for C2: Bob's 10–11 request conflicts with Alice's stored
9–10 booking and the store is unchanged; on an empty store a request is
admitted and appended. -/
theorem claim_C2_witness :
    bookRoom ⟨"R1", "2024-01-01", 10, 11, "Bob", "booked"⟩ 1
        [⟨0, "R1", "2024-01-01", 9, 10, "Alice", "booked"⟩] =
      (BookResult.conflict, [⟨0, "R1", "2024-01-01", 9, 10, "Alice", "booked"⟩]) ∧
    bookRoom ⟨"R1", "2024-01-01", 9, 10, "Alice", "booked"⟩ 0 [] =
      (BookResult.created,
        [mkBooking 0 ⟨"R1", "2024-01-01", 9, 10, "Alice", "booked"⟩]) :=
  ⟨(claim_C2_admission ⟨"R1", "2024-01-01", 10, 11, "Bob", "booked"⟩ 1
      [⟨0, "R1", "2024-01-01", 9, 10, "Alice", "booked"⟩]).1 (by decide),
   (claim_C2_admission ⟨"R1", "2024-01-01", 9, 10, "Alice", "booked"⟩ 0 []).2
      (by decide)⟩

/-- Claim C3 (refuted — check-then-act race): interleaving two identical
9–10 requests as check₀, check₁, insert₀, insert₁ lets both requests
pass the conflict check and both inserts succeed, so both finish with
201 and the final store holds two bookings on the same room and date
that the admission predicate itself reports as conflicting. -/
theorem claim_C3_race_both_succeed :
    (runSchedule [aliceReq, bobReq] [0, 1, 0, 1]).phases =
        [Phase.done BookResult.created, Phase.done BookResult.created] ∧
    (runSchedule [aliceReq, bobReq] [0, 1, 0, 1]).store =
        [mkBooking 0 aliceReq, mkBooking 1 bobReq] ∧
    matchesConflict bobReq (mkBooking 0 aliceReq) = true := by
  refine ⟨?_, ?_, ?_⟩ <;> decide

/-- Claim C4: `GET /rooms/bookings` emits one row per (room, booking)
pair with equal roomId values, joining over rooms in store order and
each room's bookings in store order, with the listed row fields; a room
whose booking filter is empty contributes no row. -/
theorem claim_C4_list_room_bookings :
    (∀ (rooms : List Room) (bookings : List Booking),
       listRoomBookings rooms bookings =
         rooms.flatMap (fun room =>
           (bookings.filter (bookingMatchesRoom room)).map (roomRow room))) ∧
    (∀ (room : Room) (b : Booking),
       bookingMatchesRoom room b = true ↔ room.roomId = some b.roomId) ∧
    (∀ (room : Room) (b : Booking),
       (roomRow room b).roomName = room.name ∧
       (roomRow room b).roomId = room.roomId ∧
       (roomRow room b).bookedStatus = b.status ∧
       (roomRow room b).customerName = b.customerName ∧
       (roomRow room b).date = b.date ∧
       (roomRow room b).startTime = b.start ∧
       (roomRow room b).endTime = b.stop) ∧
    (∀ (rooms1 rooms2 : List Room) (room : Room) (bookings : List Booking),
       bookings.filter (bookingMatchesRoom room) = [] →
       listRoomBookings (rooms1 ++ room :: rooms2) bookings =
         listRoomBookings (rooms1 ++ rooms2) bookings) := by
  refine ⟨listRoomBookings_eq, ?_, ?_, ?_⟩
  · intro room b; simp [bookingMatchesRoom]
  · intro room b; exact ⟨rfl, rfl, rfl, rfl, rfl, rfl, rfl⟩
  · intro rooms1 rooms2 room bookings hfil
    rw [listRoomBookings_eq, listRoomBookings_eq]
    simp [hfil]

/-- Witness for C4: a room with no matching booking contributes no row. -/
theorem claim_C4_witness :
    listRoomBookings ([] ++ (⟨some "R9", some "Annex", []⟩ : Room) :: []) [] =
      listRoomBookings ([] ++ []) [] :=
  claim_C4_list_room_bookings.2.2.2 [] [] ⟨some "R9", some "Annex", []⟩ []
    (by decide)

/-- Claim C5: in `GET /customers/bookings` a booking whose roomId matches
no stored room contributes zero rows (removing it changes nothing), and
the handler reports success (200) on every store content. -/
theorem claim_C5_unmatched_booking :
    (∀ (rooms : List Room) (bookings1 bookings2 : List Booking) (b : Booking),
       (∀ room ∈ rooms, ¬ room.roomId = some b.roomId) →
       listCustomerBookings rooms (bookings1 ++ b :: bookings2) =
         listCustomerBookings rooms (bookings1 ++ bookings2)) ∧
    (∀ (rooms : List Room) (bookings : List Booking),
       (customersBookingsHandler rooms bookings).fst = 200) := by
  constructor
  · intro rooms bookings1 bookings2 b hno
    have hfil : rooms.filter (fun room => bookingMatchesRoom room b) = [] :=
      List.filter_eq_nil_iff.mpr fun room hr => by
        simp [bookingMatchesRoom]
        exact hno room hr
    rw [listCustomerBookings_eq, listCustomerBookings_eq]
    simp [hfil]
  · intro rooms bookings; rfl

/-- Witness for C5: a booking on the unregistered room R2 contributes no
row to the join against a registry holding only R1. -/
theorem claim_C5_witness :
    listCustomerBookings [⟨some "R1", some "Hall A", []⟩]
        ([] ++ (⟨7, "R2", "2024-01-02", 9, 10, "Eve", "booked"⟩ : Booking) :: []) =
      listCustomerBookings [⟨some "R1", some "Hall A", []⟩] ([] ++ []) :=
  claim_C5_unmatched_booking.1 [⟨some "R1", some "Hall A", []⟩] [] []
    ⟨7, "R2", "2024-01-02", 9, 10, "Eve", "booked"⟩ (by decide)

/-- Claim C6: `GET /customers/:name` never takes its 404 branch — the
query always yields an array — and a name matching no stored booking
yields success with the empty row list. -/
theorem claim_C6_history_no_not_found :
    (∀ (name : String) (bookings : List Booking),
       getCustomerHistory name bookings ≠ HistoryResponse.notFound) ∧
    (∀ (name : String) (bookings : List Booking),
       (∀ b ∈ bookings, ¬ b.customerName = name) →
       getCustomerHistory name bookings = HistoryResponse.ok []) := by
  constructor
  · intro name bookings
    simp [getCustomerHistory, findByCustomer]
  · intro name bookings hno
    have hfil : bookings.filter (fun b => b.customerName == name) = [] :=
      List.filter_eq_nil_iff.mpr fun b hb => by
        simp
        exact hno b hb
    simp [getCustomerHistory, findByCustomer, hfil]

/-- Witness for C6: `NoSuchCustomer` against a store holding only
Alice's booking yields `ok []`. -/
theorem claim_C6_witness :
    getCustomerHistory "NoSuchCustomer"
        [⟨0, "R1", "2024-01-01", 9, 10, "Alice", "booked"⟩] =
      HistoryResponse.ok [] :=
  claim_C6_history_no_not_found.2 "NoSuchCustomer"
    [⟨0, "R1", "2024-01-01", 9, 10, "Alice", "booked"⟩] (by decide)

/-- Claim C7: `GET /customers/:name` returns exactly the bookings whose
customerName equals the argument (exact string equality), in store
order, and each row exposes the booking's roomId as `roomName`, carries
the date twice (`date` and `bookingDate`), and carries customerName,
start, end, bookingId and status. -/
theorem claim_C7_history_rows :
    (∀ (name : String) (bookings : List Booking),
       getCustomerHistory name bookings =
         HistoryResponse.ok
           ((bookings.filter (fun b => b.customerName == name)).map historyRow)) ∧
    (∀ (name : String) (bookings : List Booking) (r : HistoryRow),
       r ∈ (bookings.filter (fun b => b.customerName == name)).map historyRow ↔
         ∃ b ∈ bookings, b.customerName = name ∧ r = historyRow b) ∧
    (∀ b : Booking,
       (historyRow b).roomName = b.roomId ∧ (historyRow b).date = b.date ∧
       (historyRow b).bookingDate = b.date ∧
       (historyRow b).customerName = b.customerName ∧
       (historyRow b).startTime = b.start ∧ (historyRow b).endTime = b.stop ∧
       (historyRow b).bookingId = b._id ∧
       (historyRow b).bookingStatus = b.status) := by
  refine ⟨?_, ?_, ?_⟩
  · intro name bookings; rfl
  · intro name bookings r
    simp [List.mem_map, List.mem_filter]
    constructor
    · rintro ⟨b, ⟨hb, hname⟩, hr⟩
      exact ⟨b, hb, hname, hr.symm⟩
    · rintro ⟨b, hb, hname, hr⟩
      exact ⟨b, ⟨hb, hname⟩, hr.symm⟩
  · intro b; exact ⟨rfl, rfl, rfl, rfl, rfl, rfl, rfl, rfl⟩

/-- Claim C8: `POST /rooms` stores the caller-supplied body verbatim and
answers 201 with no validation — in particular a body with neither
roomId nor name is accepted and stored as given. -/
theorem claim_C8_create_room_verbatim :
    (∀ (body : Room) (rooms : List Room),
       createRoom body rooms = (201, rooms ++ [body])) ∧
    createRoom ⟨none, none, [("capacity", "50")]⟩ [] =
      (201, [⟨none, none, [("capacity", "50")]⟩]) :=
  ⟨fun _ _ => rfl, rfl⟩

/-- Counterexample for C9 as stated: with the degenerate stored interval
(5, 0) and candidate (1, 2) — both storable, since nothing validates
start ≤ end — the predicate holds one way round and not the other. -/
theorem claim_C9_counterexample :
    conflictOr 1 2 5 0 = false ∧ conflictOr 5 0 1 2 = true := by decide

/-- Claim C9 (amended): the conflict predicate is symmetric on
well-formed intervals, i.e. whenever both intervals satisfy
start ≤ end. -/
theorem claim_C9_amended_symm :
    ∀ s1 e1 s2 e2 : Nat, s1 ≤ e1 → s2 ≤ e2 →
      conflictOr s2 e2 s1 e1 = conflictOr s1 e1 s2 e2 := by
  intro s1 e1 s2 e2 h1 h2
  have ha := conflictOr_eq_true_iff s2 e2 s1 e1
  have hb := conflictOr_eq_true_iff s1 e1 s2 e2
  cases hc : conflictOr s2 e2 s1 e1 <;> cases hd : conflictOr s1 e1 s2 e2 <;>
    simp_all [specOverlap] <;> omega

/-- Witness for C9 (amended): disjoint well-formed intervals agree in
both orientations. -/
theorem claim_C9_witness :
    conflictOr 3 4 1 2 = conflictOr 1 2 3 4 :=
  claim_C9_amended_symm 1 2 3 4 (by decide) (by decide)

/-- Claim C10: the accept/reject outcome of `POST /bookings` depends only
on the request and on the stored bookings sharing its roomId and date —
stores agreeing on that filtered sublist (and any store-generated ids)
produce the same outcome; rooms are never consulted. -/
theorem claim_C10_same_key_determines :
    ∀ (req : BookingReq) (id1 id2 : Nat) (store1 store2 : List Booking),
      store1.filter (fun b => b.roomId == req.roomId && b.date == req.date) =
        store2.filter (fun b => b.roomId == req.roomId && b.date == req.date) →
      (bookRoom req id1 store1).fst = (bookRoom req id2 store2).fst := by
  intro req id1 id2 store1 store2 h
  rw [bookRoom_fst_eq, bookRoom_fst_eq, h]

/-- Witness for C10: a store holding only a booking for another room is
equivalent to the empty store for an R1 request. -/
theorem claim_C10_witness :
    (bookRoom ⟨"R1", "2024-01-01", 9, 10, "Alice", "booked"⟩ 0
        [⟨5, "R2", "2024-01-01", 9, 10, "Carol", "booked"⟩]).fst =
      (bookRoom ⟨"R1", "2024-01-01", 9, 10, "Alice", "booked"⟩ 3 []).fst :=
  claim_C10_same_key_determines ⟨"R1", "2024-01-01", 9, 10, "Alice", "booked"⟩
    0 3 [⟨5, "R2", "2024-01-01", 9, 10, "Carol", "booked"⟩] [] (by decide)

end HallBooking
